import Mathlib

/-!
Shallow embedding of the EV3 UART sensor line discipline
(`drivers/legoev3/legoev3_uart.c`): the frame parser / protocol state
machine (`legoev3_uart_receive_buf`), the keep-alive watchdog callback
(`legoev3_uart_keep_alive_timer_callback`), the value reader
(`legoev3_uart_show_value`) and the header codec
(`legoev3_uart_set_msg_hdr`, `legoev3_uart_msg_size`).

Bytes are `Nat` (always < 256 in the byte streams considered); the C
struct `legoev3_uart_port_data` is the `Port` structure; the receive
buffer is the list of live bytes (`write_ptr` = its length).  Reads of
C memory beyond `write_ptr` (uninitialized bytes) are modelled as 0;
no claim below depends on such a read.
-/

set_option maxRecDepth 100000

namespace EV3

/-- LEGOEV3_UART_BUFFER_SIZE (legoev3_uart.c line 32). -/
def BUFFER_SIZE : Nat := 256

/-- LEGOEV3_UART_SENSOR_DATA_SIZE: the raw_data field holds 32 bytes (line 33). -/
def SENSOR_DATA_SIZE : Nat := 32

/-- LEGOEV3_UART_MAX_DATA_ERR (line 38). -/
def MAX_DATA_ERR : Nat := 6

/-- LEGOEV3_UART_TYPE_UNKNOWN (line 40). -/
def TYPE_UNKNOWN : Nat := 125

/-- LEGOEV3_UART_SPEED_MIN (line 41). -/
def SPEED_MIN : Nat := 2400

/-- LEGOEV3_UART_SPEED_MAX (line 43). -/
def SPEED_MAX : Nat := 460800

/-- Modelled from the spec: LEGOEV3_UART_MODE_MAX comes from the missing
header `linux/legoev3/legoev3_uart.h`; the spec fixes the mode table at
8 slots and mode counts in [1, 8], so MODE_MAX = 7. -/
def MODE_MAX : Nat := 7

/-- Modelled from the spec: LEGOEV3_UART_TYPE_MAX comes from the missing
header `linux/legoev3/legoev3_uart.h`.  The spec only constrains valid
sensor types to be nonzero and below the reserved unknown value 125; the
exact bound does not affect any claim (all types used are at most 33),
so we take the largest value consistent with the spec. -/
def TYPE_MAX : Nat := 124

/-- Modelled from the spec: LEGOEV3_UART_NAME_SIZE comes from the missing
header; the spec says a mode name is a short string of about 11 bytes. -/
def NAME_SIZE : Nat := 11

/-- Modelled from the spec: LEGOEV3_UART_UNITS_SIZE comes from the missing
header; the spec only says units is a short string.  No claim depends on it. -/
def UNITS_SIZE : Nat := 4

/-- LEGOEV3_UART_INFO_FLAG_CMD_TYPE = BIT(0) (lines 82-101). -/
def FLAG_CMD_TYPE : Nat := 1

/-- LEGOEV3_UART_INFO_FLAG_CMD_MODES = BIT(1). -/
def FLAG_CMD_MODES : Nat := 2

/-- LEGOEV3_UART_INFO_FLAG_CMD_SPEED = BIT(2). -/
def FLAG_CMD_SPEED : Nat := 4

/-- LEGOEV3_UART_INFO_FLAG_INFO_NAME = BIT(3). -/
def FLAG_INFO_NAME : Nat := 8

/-- LEGOEV3_UART_INFO_FLAG_INFO_RAW = BIT(4). -/
def FLAG_INFO_RAW : Nat := 16

/-- LEGOEV3_UART_INFO_FLAG_INFO_PCT = BIT(5). -/
def FLAG_INFO_PCT : Nat := 32

/-- LEGOEV3_UART_INFO_FLAG_INFO_SI = BIT(6). -/
def FLAG_INFO_SI : Nat := 64

/-- LEGOEV3_UART_INFO_FLAG_INFO_UNITS = BIT(7). -/
def FLAG_INFO_UNITS : Nat := 128

/-- LEGOEV3_UART_INFO_FLAG_INFO_FORMAT = BIT(8). -/
def FLAG_INFO_FORMAT : Nat := 256

/-- LEGOEV3_UART_INFO_FLAG_ALL_INFO = NAME|RAW|PCT|SI|UNITS|FORMAT (lines 102-107). -/
def FLAG_ALL_INFO : Nat := FLAG_INFO_NAME + FLAG_INFO_RAW + FLAG_INFO_PCT
  + FLAG_INFO_SI + FLAG_INFO_UNITS + FLAG_INFO_FORMAT

/-- LEGOEV3_UART_INFO_FLAG_REQUIRED = CMD_TYPE|CMD_MODES|INFO_NAME|INFO_FORMAT (lines 108-111). -/
def FLAG_REQUIRED : Nat := FLAG_CMD_TYPE + FLAG_CMD_MODES + FLAG_INFO_NAME + FLAG_INFO_FORMAT

/-- struct legoev3_uart_mode_info (declared in the missing header; its fields
and defaults follow the uses in legoev3_uart.c and the spec data model).
Scaling limits hold raw 32-bit IEEE-754 words.  `raw_data` is a 32-byte
field in C; here it is the list of bytes the last DATA copy wrote starting
at the field's address, so a copy longer than 32 bytes shows up as a list
longer than 32 (an out-of-bounds write in C). -/
structure ModeInfo where
  name : List Nat := []
  raw_min : Nat := 0
  raw_max : Nat := 0
  pct_min : Nat := 0
  pct_max : Nat := 0
  si_min : Nat := 0
  si_max : Nat := 0
  units : List Nat := []
  data_sets : Nat := 0
  format : Nat := 0
  figures : Nat := 0
  decimals : Nat := 0
  raw_data : List Nat := List.replicate 32 0
  deriving Repr, DecidableEq

/-- legoev3_uart_default_mode_info (lines 520-525): raw_max = 1023.0f,
pct_max = 100.0f, si_max = 1.0f, figures = 4, everything else zero. -/
def defaultModeInfo : ModeInfo :=
  { raw_max := 0x447fc000, pct_max := 0x42c80000, si_max := 0x3f800000, figures := 4 }

/-- struct legoev3_uart_port_data (lines 139-161).  `buffer` holds the live
bytes (so `write_ptr` = `buffer.length`); `synced`, `info_done`, `data_rec`
are the bit fields of the same names. -/
structure Port where
  type : Nat := TYPE_UNKNOWN
  num_modes : Nat := 0
  num_view_modes : Nat := 0
  mode : Nat := 0
  new_baud_rate : Nat := SPEED_MIN
  info_flags : Nat := 0
  buffer : List Nat := []
  last_err : String := ""
  num_data_err : Nat := 0
  synced : Bool := false
  info_done : Bool := false
  data_rec : Bool := false
  mode_info : List ModeInfo := List.replicate 8 {}
  deriving Repr, DecidableEq

/-- The port right after legoev3_uart_open (lines 689-747): kzalloc zeroes
everything, then type := TYPE_UNKNOWN and new_baud_rate := SPEED_MIN. -/
def initPort : Port := {}

/-- Deferred work items receive_buf can schedule (schedule_delayed_work calls). -/
inductive Action where
  | scheduleSendAck
  | scheduleChangeBitrate
  deriving Repr, DecidableEq

/-- legoev3_uart_msg_size (lines 527-540): SYS messages are 1 byte; otherwise
1 + (1 << ((header >> 3) & 7)) + 1, and INFO messages carry one extra
sub-command byte. -/
def msgSize (header : Nat) : Nat :=
  if header &&& 0xC0 = 0 then 1
  else
    let size := 2 ^ ((header >>> 3) &&& 0x7) + 2
    if header &&& 0xC0 = 0x80 then size + 1 else size

/-- The checksum loop (lines 860-862): XOR of the given bytes onto seed 0xFF. -/
def checksumList (l : List Nat) : Nat := l.foldl (fun a b => a ^^^ b) 0xFF

/-- A 32-bit little-endian load from the buffer, as the casts
`*(int *)(port->buffer + off)` perform. -/
def le32 (l : List Nat) (off : Nat) : Nat :=
  l.getD off 0 + 256 * l.getD (off + 1) 0
    + 65536 * l.getD (off + 2) 0 + 16777216 * l.getD (off + 3) 0

/-- Reinterpret a 32-bit word as a signed int, as the C cast `(int)` does. -/
def toS32 (n : Nat) : Int := if n < 2 ^ 31 then (n : Int) else (n : Int) - 2 ^ 32

/-- Mode slot read `port->mode_info[m]` (the array has 8 entries). -/
def modeInfoAt (p : Port) (m : Nat) : ModeInfo := p.mode_info.getD m {}

/-- The err_invalid_state label (lines 1132-1137): clear synced, reset the
requested baud rate to SPEED_MIN and schedule the bitrate change work. -/
def errInvalidState (p : Port) : Port :=
  { p with synced := false, new_baud_rate := SPEED_MIN }

/-- Result of processing one complete message from the front of the buffer:
either continue the loop with the shifted buffer, or take err_invalid_state
(which exits receive_buf). -/
inductive Outcome where
  | next (p : Port) (acts : List Action)
  | fail (p : Port)
  deriving Repr, DecidableEq

/-- Port state carried out of an `Outcome`. -/
def outPort : Outcome → Port
  | .next p _ => p
  | .fail p => p

/-- Actions carried out of an `Outcome`. -/
def outActs : Outcome → List Action
  | .next _ a => a
  | .fail _ => []

/-- Whether the outcome was err_invalid_state. -/
def isFail : Outcome → Bool
  | .next _ _ => false
  | .fail _ => true

/-- The buffer shift at err_split_sync_checksum (lines 1121-1128): move the
leftover bytes to the front, i.e. drop the consumed message. -/
def shiftBuffer (p : Port) (n : Nat) : Port :=
  { p with buffer := p.buffer.drop n }

/-- The err_bad_data_msg_checksum label followed by the shift (lines
1118-1128): once all mode info is done, a data-error count above
MAX_DATA_ERR goes to err_invalid_state; otherwise the message is consumed. -/
def afterProcess (p : Port) (acts : List Action) (n : Nat) : Outcome :=
  if p.info_done ∧ p.num_data_err > MAX_DATA_ERR then .fail p
  else .next (shiftBuffer p n) acts

/-- One iteration of the message-processing loop body of
legoev3_uart_receive_buf (lines 834-1129), for a port whose buffer starts
with a complete message (msgSize of the first byte ≤ buffer length). -/
def processMsg (p : Port) : Outcome :=
  let b0 := p.buffer.headD 0
  let msgSz := msgSize b0
  -- Stray 0xFF quirk (lines 851-854): consume exactly one byte, skipping
  -- even the data-error threshold check (goto err_split_sync_checksum).
  if b0 = 0xFF then .next (shiftBuffer p 1) []
  else
    let msg_type := b0 &&& 0xC0
    let cmd := b0 &&& 0x07
    let mode := cmd
    let cmd2 := p.buffer.getD 1 0
    -- Checksum check (lines 859-881): a mismatch is an error only when the
    -- sensor type is not 29 AND the first byte is not 0xDC.
    if msgSz > 1
        ∧ checksumList (p.buffer.take (msgSz - 1)) ≠ p.buffer.getD (msgSz - 1) 0
        ∧ p.type ≠ 29 ∧ b0 ≠ 0xDC then
      let p := { p with last_err := "Bad checksum." }
      if p.info_done then
        afterProcess { p with num_data_err := p.num_data_err + 1 } [] msgSz
      else .fail p
    else if msg_type = 0 then
      -- LEGOEV3_UART_MSG_TYPE_SYS (lines 883-907)
      if cmd = 0 then
        -- SYS_SYNC: the extra-checksum-byte quirk (lines 886-890).  Note
        -- msgSize of a SYS header is always 1, so the guard never holds.
        let msgSz := if msgSz > 1 ∧ (cmd ^^^ cmd2) = 0xFF then msgSz + 1 else msgSz
        afterProcess p [] msgSz
      else if cmd = 4 then
        -- SYS_ACK (lines 891-905)
        if p.num_modes = 0 then
          .fail { p with last_err := "Received ACK before all mode INFO." }
        else if p.info_flags &&& FLAG_REQUIRED ≠ FLAG_REQUIRED then
          .fail { p with last_err := "Did not receive all required INFO." }
        else
          afterProcess { p with info_done := true } [Action.scheduleSendAck] msgSz
      else afterProcess p [] msgSz
    else if msg_type = 0x40 then
      -- LEGOEV3_UART_MSG_TYPE_CMD (lines 908-951)
      if cmd = 1 then
        -- CMD_MODES (lines 911-929): test_and_set the flag, then range-check
        if p.info_flags.testBit 1 then
          .fail { p with last_err := "Received duplicate modes INFO." }
        else
          let p := { p with info_flags := p.info_flags ||| FLAG_CMD_MODES }
          if cmd2 = 0 ∨ cmd2 > MODE_MAX then
            .fail { p with last_err := "Number of modes is out of range." }
          else
            let p := { p with num_modes := cmd2 + 1 }
            let p := if msgSz > 3 then { p with num_view_modes := p.buffer.getD 2 0 + 1 }
                     else { p with num_view_modes := p.num_modes }
            afterProcess p [] msgSz
      else if cmd = 2 then
        -- CMD_SPEED (lines 930-946)
        if p.info_flags.testBit 2 then
          .fail { p with last_err := "Received duplicate speed INFO." }
        else
          let p := { p with info_flags := p.info_flags ||| FLAG_CMD_SPEED }
          let speed := toS32 (le32 p.buffer 1)
          if speed < (SPEED_MIN : Int) ∨ speed > (SPEED_MAX : Int) then
            .fail { p with last_err := "Speed is out of range." }
          else
            afterProcess { p with new_baud_rate := speed.toNat } [] msgSz
      else .fail { p with last_err := "Unknown command." }
    else if msg_type = 0x80 then
      -- LEGOEV3_UART_MSG_TYPE_INFO (lines 952-1101)
      if cmd2 = 0 then
        -- INFO_NAME (lines 955-980): clear all per-mode flags first
        let p := { p with info_flags := p.info_flags &&& (0xFFFFFFFF ^^^ FLAG_ALL_INFO) }
        if p.buffer.getD 2 0 < 65 ∨ p.buffer.getD 2 0 > 122 then
          .fail { p with last_err := "Invalid name INFO." }
        else
          -- write 0 over the checksum byte, then strlen from offset 2
          let p := { p with buffer := p.buffer.set (msgSz - 1) 0 }
          let name := (p.buffer.drop 2).takeWhile (fun b => b != 0)
          if name.length > NAME_SIZE then
            .fail { p with last_err := "Name is too long." }
          else
            let mi := { modeInfoAt p mode with name := name.take NAME_SIZE }
            afterProcess { p with mode_info := p.mode_info.set mode mi,
                                  mode := mode,
                                  info_flags := p.info_flags ||| FLAG_INFO_NAME } [] msgSz
      else if cmd2 = 1 then
        -- INFO_RAW (lines 981-999)
        if p.mode ≠ mode then
          .fail { p with last_err := "Received INFO for incorrect mode." }
        else if p.info_flags.testBit 4 then
          .fail { p with last_err := "Received duplicate raw scaling INFO." }
        else
          let p := { p with info_flags := p.info_flags ||| FLAG_INFO_RAW }
          let mi := { modeInfoAt p mode with raw_min := le32 p.buffer 2,
                                             raw_max := le32 p.buffer 6 }
          afterProcess { p with mode_info := p.mode_info.set mode mi } [] msgSz
      else if cmd2 = 2 then
        -- INFO_PCT (lines 1000-1018)
        if p.mode ≠ mode then
          .fail { p with last_err := "Received INFO for incorrect mode." }
        else if p.info_flags.testBit 5 then
          .fail { p with last_err := "Received duplicate percent scaling INFO." }
        else
          let p := { p with info_flags := p.info_flags ||| FLAG_INFO_PCT }
          let mi := { modeInfoAt p mode with pct_min := le32 p.buffer 2,
                                             pct_max := le32 p.buffer 6 }
          afterProcess { p with mode_info := p.mode_info.set mode mi } [] msgSz
      else if cmd2 = 3 then
        -- INFO_SI (lines 1019-1037)
        if p.mode ≠ mode then
          .fail { p with last_err := "Received INFO for incorrect mode." }
        else if p.info_flags.testBit 6 then
          .fail { p with last_err := "Received duplicate SI scaling INFO." }
        else
          let p := { p with info_flags := p.info_flags ||| FLAG_INFO_SI }
          let mi := { modeInfoAt p mode with si_min := le32 p.buffer 2,
                                             si_max := le32 p.buffer 6 }
          afterProcess { p with mode_info := p.mode_info.set mode mi } [] msgSz
      else if cmd2 = 4 then
        -- INFO_UNITS (lines 1038-1062)
        if p.mode ≠ mode then
          .fail { p with last_err := "Received INFO for incorrect mode." }
        else if p.info_flags.testBit 7 then
          .fail { p with last_err := "Received duplicate SI units INFO." }
        else
          let p := { p with info_flags := p.info_flags ||| FLAG_INFO_UNITS }
          let p := { p with buffer := p.buffer.set (msgSz - 1) 0 }
          let units := ((p.buffer.drop 2).takeWhile (fun b => b != 0)).take UNITS_SIZE
          let mi := { modeInfoAt p mode with units := units }
          afterProcess { p with mode_info := p.mode_info.set mode mi } [] msgSz
      else if cmd2 = 0x80 then
        -- INFO_FORMAT (lines 1063-1100)
        if p.mode ≠ mode then
          .fail { p with last_err := "Received INFO for incorrect mode." }
        else if p.info_flags.testBit 8 then
          .fail { p with last_err := "Received duplicate format INFO." }
        else
          let p := { p with info_flags := p.info_flags ||| FLAG_INFO_FORMAT }
          let mi0 := { modeInfoAt p mode with data_sets := p.buffer.getD 2 0 }
          let p := { p with mode_info := p.mode_info.set mode mi0 }
          if (modeInfoAt p mode).data_sets = 0 then
            .fail { p with last_err := "Invalid number of data sets." }
          else if msgSz < 7 then
            .fail { p with last_err := "Invalid format message size." }
          else if p.info_flags &&& FLAG_REQUIRED ≠ FLAG_REQUIRED then
            .fail { p with last_err := "Did not receive all required INFO." }
          else
            let mi1 := { modeInfoAt p mode with format := p.buffer.getD 3 0 }
            let p : Port := { p with mode_info := p.mode_info.set mode mi1 }
            -- figures and decimals are stored, and mode decremented, only
            -- when the current mode is nonzero (lines 1089-1094)
            let p : Port := if p.mode ≠ 0 then
                let mi2 := { modeInfoAt p mode with figures := p.buffer.getD 4 0,
                                                    decimals := p.buffer.getD 5 0 }
                { p with mode := p.mode - 1, mode_info := p.mode_info.set mode mi2 }
              else p
            afterProcess p [] msgSz
      else afterProcess p [] msgSz
    else
      -- LEGOEV3_UART_MSG_TYPE_DATA (lines 1103-1115)
      if !p.info_done then
        .fail { p with last_err := "Received DATA before INFO was complete." }
      else
        let payload := (p.buffer.drop 1).take (msgSz - 2)
        let mi := modeInfoAt p mode
        let mi := { mi with raw_data := payload ++ mi.raw_data.drop payload.length }
        afterProcess { p with mode := mode,
                              mode_info := p.mode_info.set mode mi,
                              data_rec := true,
                              num_data_err := p.num_data_err - 1 } [] msgSz

/-- The message-processing loop (lines 834-1129): run processMsg while the
buffer holds a complete message.  Each step consumes at least one byte, so
fuel `buffer.length + 1` always suffices. -/
def processLoop : Nat → Port → List Action → Port × List Action
  | 0, p, acts => (p, acts)
  | fuel + 1, p, acts =>
    match p.buffer with
    | [] => (p, acts)
    | b0 :: _ =>
      if msgSize b0 ≤ p.buffer.length then
        match processMsg p with
        | .next p2 a2 => processLoop fuel p2 (acts ++ a2)
        | .fail p2 => (errInvalidState p2, acts ++ [Action.scheduleChangeBitrate])
      else (p, acts)

/-- The effect of a successful TYPE-triplet match in the sync scanner
(lines 805-816). -/
def syncPort (p : Port) (t : Nat) : Port :=
  { p with num_modes := 1, num_view_modes := 1,
           mode_info := List.replicate 8 defaultModeInfo,
           type := t,
           info_flags := FLAG_CMD_TYPE,
           synced := true, info_done := false,
           buffer := [],
           data_rec := false, num_data_err := 0 }

/-- The sync scanner loop (lines 793-817): look for the triplet
(0x40 = CMD|TYPE, valid type byte, checksum); advance one byte on any
mismatch; return (without retaining anything) when fewer than 3 bytes
remain. -/
def syncScan (p : Port) : List Nat → Option (Port × List Nat)
  | c0 :: c1 :: c2 :: rest =>
    if c0 ≠ 0x40 then syncScan p (c1 :: c2 :: rest)
    else if c1 = 0 ∨ c1 > TYPE_MAX then syncScan p (c1 :: c2 :: rest)
    else if c2 ≠ (0xFF ^^^ 0x40 ^^^ c1) then syncScan p (c1 :: c2 :: rest)
    else some (syncPort p c1, rest)
  | _ => none

/-- The byte-append loop (lines 825-829): append to the buffer, failing with
err_invalid_state when write_ptr would pass BUFFER_SIZE. -/
def appendBytes (p : Port) (bytes : List Nat) : Port × Bool :=
  if p.buffer.length + bytes.length > BUFFER_SIZE then
    ({ p with buffer := (p.buffer ++ bytes).take BUFFER_SIZE }, true)
  else ({ p with buffer := p.buffer ++ bytes }, false)

/-- legoev3_uart_receive_buf (lines 772-1137) on one delivery `cp`: sync scan
while unsynced (returning, bytes dropped, if no triplet completes), then
append and process complete messages; returns the new port state and the
scheduled work items. -/
def receive_buf (p : Port) (cp : List Nat) : Port × List Action :=
  if p.synced then
    let (p2, overflow) := appendBytes p cp
    if overflow then (errInvalidState p2, [Action.scheduleChangeBitrate])
    else processLoop (p2.buffer.length + 1) p2 []
  else
    match syncScan p cp with
    | none => (p, [])
    | some (p2, rest) =>
      let (p3, overflow) := appendBytes p2 rest
      if overflow then (errInvalidState p3, [Action.scheduleChangeBitrate])
      else processLoop (p3.buffer.length + 1) p3 []

/-- Feed a sequence of deliveries through receive_buf, keeping the port. -/
def feed (p : Port) (ds : List (List Nat)) : Port :=
  ds.foldl (fun q d => (receive_buf q d).1) p

/-- Result of one keep-alive timer expiry: the new port state, whether the
timer restarts (HRTIMER_RESTART) and whether the NACK tasklet was scheduled. -/
structure KeepAliveResult where
  port : Port
  restart : Bool
  nack_scheduled : Bool
  deriving Repr, DecidableEq

/-- legoev3_uart_keep_alive_timer_callback (lines 667-687): do nothing once
unsynced or before info is done; otherwise count a miss when no DATA was
received since the last tick, clear data_rec, schedule the NACK tasklet,
and stop the timer once the error count exceeds MAX_DATA_ERR. -/
def keep_alive_timer_callback (p : Port) : KeepAliveResult :=
  if !p.synced || !p.info_done then ⟨p, false, false⟩
  else
    let p := if !p.data_rec then
        { p with last_err := "No data since last keep-alive.",
                 num_data_err := p.num_data_err + 1 }
      else p
    let p := { p with data_rec := false }
    ⟨p, decide (p.num_data_err ≤ MAX_DATA_ERR), true⟩

/-- Signed 8-bit read `*(s8 *)(raw_data + index)` (lines 293-299). -/
def s8val (l : List Nat) (i : Nat) : Int :=
  let b := l.getD i 0
  if b < 128 then (b : Int) else (b : Int) - 256

/-- Signed 16-bit little-endian read `*(s16 *)(raw_data + index * 2)`
(lines 301-307). -/
def s16val (l : List Nat) (i : Nat) : Int :=
  let v := l.getD (2 * i) 0 + 256 * l.getD (2 * i + 1) 0
  if v < 32768 then (v : Int) else (v : Int) - 65536

/-- Signed 32-bit little-endian read `*(s32 *)(raw_data + index * 4)`
(lines 309-315). -/
def s32val (l : List Nat) (i : Nat) : Int := toS32 (le32 l (4 * i))

/-- Modelled from the spec: legoev3_uart_ftoi lives in the missing header
`linux/legoev3/legoev3_uart.h`.  Per the spec it converts a little-endian
IEEE-754 32-bit float (given as its raw bits) to an integer, rounding to
`decimals` fractional digits (i.e. the value scaled by 10^decimals).
Zero/denormal and infinity/NaN encodings are outside the spec; they map
to 0 here.  No claim evaluates this function. -/
def legoev3_uart_ftoi (bits : Nat) (decimals : Nat) : Int :=
  let sign : Int := if bits.testBit 31 then -1 else 1
  let exp : Nat := (bits >>> 23) &&& 0xFF
  let mant : Nat := bits &&& 0x7FFFFF
  if exp = 0 ∨ exp = 255 then 0
  else
    let m : Nat := (2 ^ 23 + mant) * 10 ^ decimals
    let v : Nat :=
      if exp ≥ 150 then m * 2 ^ (exp - 150)
      else (m + 2 ^ (149 - exp)) / 2 ^ (150 - exp)
    sign * v

/-- LEGOEV3_UART_DATA_8 (missing header; the spec's format S8). -/
def DATA_8 : Nat := 0

/-- LEGOEV3_UART_DATA_16 (missing header; the spec's format S16). -/
def DATA_16 : Nat := 1

/-- LEGOEV3_UART_DATA_32 (missing header; the spec's format S32). -/
def DATA_32 : Nat := 2

/-- LEGOEV3_UART_DATA_FLOAT (missing header; the spec's format FLOAT). -/
def DATA_FLOAT : Nat := 3

/-- legoev3_uart_show_value (lines 327-359): `none` models the -ENXIO
return.  The index is checked against data_sets of the current mode and
the value is decoded per the mode's format; no phase flag is consulted. -/
def show_value (p : Port) (index : Nat) : Option Int :=
  let mi := modeInfoAt p p.mode
  if mi.data_sets ≤ index then none
  else if mi.format = DATA_8 then some (s8val mi.raw_data index)
  else if mi.format = DATA_16 then some (s16val mi.raw_data index)
  else if mi.format = DATA_32 then some (s32val mi.raw_data index)
  else if mi.format = DATA_FLOAT then
    some (legoev3_uart_ftoi (le32 mi.raw_data (4 * index)) mi.decimals)
  else none

/-- The kernel's find_last_bit(addr, size): the index of the highest set bit
among bits 0 .. size-1 of the word, or `size` when none of them is set. -/
def find_last_bit (value nbits : Nat) : Nat :=
  (List.range nbits).foldl (fun acc j => if value.testBit j then j else acc) nbits

/-- sizeof(unsigned long) on the repository's only target, the EV3's 32-bit
ARM SoC (the code includes mach/legoev3.h). -/
def sizeof_unsigned_long : Nat := 4

/-- legoev3_uart_set_msg_hdr (lines 163-169): note the second argument of
find_last_bit is sizeof(unsigned long) — a byte count, 4 — used as the
number of BITS to search. -/
def legoev3_uart_set_msg_hdr (ty sz cmd : Nat) : Nat :=
  let size_code := (find_last_bit sz sizeof_unsigned_long &&& 0x7) <<< 3
  ((ty &&& 0xC0) ||| size_code) ||| (cmd &&& 0x07)

/-- Declared payload length of a header byte: 2 ^ (the 3 size bits). -/
def hdrPayloadLen (h : Nat) : Nat := 2 ^ ((h >>> 3) &&& 0x7)

/-- Message-type bits of a header byte. -/
def hdrMsgType (h : Nat) : Nat := h &&& 0xC0

/-- Command bits of a header byte. -/
def hdrCmd (h : Nat) : Nat := h &&& 0x07

/-! Concrete session states and frames used by the theorems below. -/

/-- A session of sensor type `t` in the Running phase (synced, all required
info collected, info_done set, the post-handshake work already run), with
the given receive-buffer content. -/
def mkRunning (t : Nat) (buf : List Nat) : Port :=
  { type := t, num_modes := 2, num_view_modes := 2, mode := 0,
    new_baud_rate := 57600, info_flags := FLAG_REQUIRED, buffer := buf,
    last_err := "", num_data_err := 0, synced := true, info_done := true,
    data_rec := false, mode_info := List.replicate 8 defaultModeInfo }

/-- A mode-0 DATA frame `C0 2A xx` whose trailing checksum byte 0x00 is wrong
(the correct checksum is 0x15). -/
def c1mismatchFrame : List Nat := [0xC0, 0x2A, 0x00]

/-- A mode-4 DATA frame with first byte 0xDC (8 payload bytes) whose trailing
checksum byte 0x00 is wrong (the correct checksum is 0x2B). -/
def c1dcFrame : List Nat := 0xDC :: ([1, 2, 3, 4, 5, 6, 7, 8] ++ [0x00])

/-- Deliver `n` consecutive bad-checksum DATA frames to a fresh Running
session of type 16 in a single receive_buf call. -/
def c2run (n : Nat) : Port × List Action :=
  receive_buf (mkRunning 16 []) (List.flatten (List.replicate n c1mismatchFrame))

/-- An INFO_NAME frame for mode `m` (4 payload bytes, name "M", valid
checksum). -/
def nameFrame (m : Nat) : List Nat :=
  [0x90 ||| m, 0x00, 0x4D, 0x00, 0x00, 0x00, 0xFF ^^^ (0x90 ||| m) ^^^ 0x4D]

/-- Sync as a type-16 sensor (num_modes = 1), then process an INFO_NAME frame
carrying mode bits 3. -/
def c4port : Port := feed initPort [[0x40, 0x10, 0xAF], nameFrame 3]

/-- A Running session that knows exactly one mode. -/
def c4running : Port := { mkRunning 16 [] with num_modes := 1, num_view_modes := 1 }

/-- A mode-`m` DATA frame with payload byte 0x2A and valid checksum. -/
def dataFrame (m : Nat) : List Nat :=
  [0xC0 ||| m, 0x2A, 0xFF ^^^ (0xC0 ||| m) ^^^ 0x2A]

/-- A full session history: sync (type 16), CMD_MODES, INFO_NAME mode 0,
INFO_FORMAT mode 0 (1 data set, format S8), SYS_ACK, one good DATA frame
(value 42), then a CMD_SELECT frame from the sensor, which is an unknown
command and forces a resync.  Afterwards the session is Unsynced but the
mode table still holds the handshake metadata and the last sample. -/
def c6port : Port :=
  feed initPort
    [[0x40, 0x10, 0xAF],
     [0x41, 0x01, 0xBF],
     [0x90, 0x00, 0x4D, 0x00, 0x00, 0x00, 0x22],
     [0x90, 0x80, 0x01, 0x00, 0x00, 0x00, 0xEE],
     [0x04],
     [0xC0, 0x2A, 0x15],
     [0x43, 0x00, 0xBC]]

/-- An INFO_FORMAT frame for mode `m`: 1 data set, format 2 (S32), figures
byte 9, decimals byte 2, valid checksum. -/
def formatFrame (m : Nat) : List Nat :=
  [0x90 ||| m, 0x80, 0x01, 0x02, 0x09, 0x02,
   0xFF ^^^ (0x90 ||| m) ^^^ 0x80 ^^^ 0x01 ^^^ 0x02 ^^^ 0x09 ^^^ 0x02]

/-- A Collecting session whose current mode is `m`, with CMD_TYPE, CMD_MODES
and INFO_NAME already seen and the mode-`m` INFO_FORMAT frame buffered. -/
def c7port (m : Nat) : Port :=
  { type := 16, num_modes := 8, num_view_modes := 8, mode := m,
    new_baud_rate := 57600,
    info_flags := FLAG_CMD_TYPE + FLAG_CMD_MODES + FLAG_INFO_NAME,
    buffer := formatFrame m, last_err := "", num_data_err := 0,
    synced := true, info_done := false, data_rec := false,
    mode_info := List.replicate 8 defaultModeInfo }

/-- A mode-0 DATA frame with header 0xF0 (payload-size exponent 6, so 64
payload bytes) and valid checksum 0x0F. -/
def c8frame : List Nat := 0xF0 :: (List.replicate 64 0 ++ [0x0F])

/-- A Running session whose keep-alive error count already sits at the
threshold, one keep-alive miss away from crossing it. -/
def kaPort : Port := { mkRunning 16 [] with num_data_err := MAX_DATA_ERR }

/-! Claim theorems. -/

/-- C1 (counterexample): the claim says a bad-checksum DATA frame is accepted
exactly when the sensor type is 29 AND the first byte is 0xDC, and that for
every other combination the mismatch is counted.  But for sensor type 29 with
first byte 0xC0 (not 0xDC) the code still accepts the frame: data_error_count
stays 0, data_rec is set and the payload byte 0x2A is stored. -/
theorem c1_counterexample :
    (outPort (processMsg (mkRunning 29 c1mismatchFrame))).num_data_err = 0 ∧
    (outPort (processMsg (mkRunning 29 c1mismatchFrame))).data_rec = true ∧
    (modeInfoAt (outPort (processMsg (mkRunning 29 c1mismatchFrame))) 0).raw_data.getD 0 0
      = 0x2A := by decide

/-- C1 (amended): in Running, a DATA frame whose trailing checksum byte is
wrong is accepted — data_error_count not incremented, payload stored — exactly
when the sensor type is 29 OR the frame's first byte is 0xDC.  For every
sensor type, the non-0xDC frame is counted iff the type is not 29, and the
0xDC-headed frame is always accepted. -/
theorem c1_accept_condition :
    ∀ t : Fin 256,
      (let r := outPort (processMsg (mkRunning t.val c1mismatchFrame))
       if t.val = 29 then
         r.num_data_err = 0 ∧ r.data_rec = true ∧
         (modeInfoAt r 0).raw_data.getD 0 0 = 0x2A
       else
         r.num_data_err = 1 ∧ r.data_rec = false ∧
         (modeInfoAt r 0).raw_data.getD 0 0 = 0) ∧
      (let r2 := outPort (processMsg (mkRunning t.val c1dcFrame))
       r2.num_data_err = 0 ∧ r2.data_rec = true ∧ r2.mode = 4 ∧
       (modeInfoAt r2 4).raw_data.take 8 = [1, 2, 3, 4, 5, 6, 7, 8]) := by decide

/-- C1 (witness): the amended acceptance condition instantiated at sensor
type 29 with the non-0xDC bad-checksum frame. -/
theorem c1_accept_condition_witness :
    (outPort (processMsg (mkRunning 29 c1mismatchFrame))).num_data_err = 0 ∧
    (outPort (processMsg (mkRunning 29 c1mismatchFrame))).data_rec = true ∧
    (modeInfoAt (outPort (processMsg (mkRunning 29 c1mismatchFrame))) 0).raw_data.getD 0 0
      = 0x2A :=
  (c1_accept_condition 29).1

/-- C2 (counterexample): the claim says that after exactly 6 bad data events
the session leaves Running.  But after 6 consecutive bad-checksum DATA frames
the session is still synced (still Running) with data_error_count 6: the
code only resyncs once the counter EXCEEDS 6. -/
theorem c2_counterexample :
    (c2run 6).1.synced = true ∧ (c2run 6).1.num_data_err = 6 ∧ (c2run 6).2 = [] := by decide

/-- C2 (amended): with data_error_count initially 0, after exactly 7
consecutive bad data events the session leaves Running for resync (synced
cleared, baud reset to 2400, bitrate-change work scheduled, last_err "Bad
checksum."), while after only 6 such events it is still in Running. -/
theorem c2_threshold_seven :
    ((c2run 7).1.synced = false ∧ (c2run 7).1.num_data_err = 7 ∧
     (c2run 7).1.new_baud_rate = SPEED_MIN ∧
     (c2run 7).2 = [Action.scheduleChangeBitrate] ∧
     (c2run 7).1.last_err = "Bad checksum.") ∧
    ((c2run 6).1.synced = true ∧ (c2run 6).1.num_data_err = 6 ∧ (c2run 6).2 = []) := by decide

/-- C3 (counterexample): the claim says that when a keep-alive tick pushes
data_error_count past the threshold, the session immediately resyncs (synced
cleared, baud set back to 2400).  But the timer callback leaves synced set
and the baud rate untouched (57600); it only stops its own rescheduling. -/
theorem c3_counterexample :
    (keep_alive_timer_callback kaPort).port.synced = true ∧
    (keep_alive_timer_callback kaPort).port.new_baud_rate = 57600 ∧
    (keep_alive_timer_callback kaPort).port.num_data_err = MAX_DATA_ERR + 1 ∧
    (keep_alive_timer_callback kaPort).restart = false := by decide

/-- C3 (amended): when a keep-alive tick increments data_error_count past the
threshold, the callback returns the no-restart verdict (stopping the
keep-alive timer) and still schedules the NACK, but does not clear the synced
state, change the requested baud rate or drop the receive buffer; the full
recovery (synced cleared, baud 2400, bitrate-change work after 10 ms) happens
only when receive_buf next processes a message with the counter above the
threshold — shown here for a SYS_NACK byte arriving after the tick. -/
theorem c3_tick_no_resync :
    (∀ p : Port, p.synced = true → p.info_done = true → p.data_rec = false →
      p.num_data_err = MAX_DATA_ERR →
      (keep_alive_timer_callback p).restart = false ∧
      (keep_alive_timer_callback p).port.synced = true ∧
      (keep_alive_timer_callback p).port.new_baud_rate = p.new_baud_rate ∧
      (keep_alive_timer_callback p).port.buffer = p.buffer ∧
      (keep_alive_timer_callback p).port.num_data_err = MAX_DATA_ERR + 1 ∧
      (keep_alive_timer_callback p).nack_scheduled = true) ∧
    ((receive_buf (keep_alive_timer_callback kaPort).port [0x02]).1.synced = false ∧
     (receive_buf (keep_alive_timer_callback kaPort).port [0x02]).1.new_baud_rate = SPEED_MIN ∧
     (receive_buf (keep_alive_timer_callback kaPort).port [0x02]).2
       = [Action.scheduleChangeBitrate]) := by
  constructor
  · intro p h1 h2 h3 h4
    simp [keep_alive_timer_callback, h1, h2, h3, h4, MAX_DATA_ERR]
  · decide

/-- C3 (witness): the keep-alive part of the amended claim instantiated at
the concrete threshold-riding Running session. -/
theorem c3_tick_no_resync_witness :
    (keep_alive_timer_callback kaPort).restart = false ∧
    (keep_alive_timer_callback kaPort).port.synced = true ∧
    (keep_alive_timer_callback kaPort).port.new_baud_rate = kaPort.new_baud_rate ∧
    (keep_alive_timer_callback kaPort).port.buffer = kaPort.buffer ∧
    (keep_alive_timer_callback kaPort).port.num_data_err = MAX_DATA_ERR + 1 ∧
    (keep_alive_timer_callback kaPort).nack_scheduled = true :=
  c3_tick_no_resync.1 kaPort rfl rfl rfl rfl

/-- C4 (counterexample): the claim says every reachable state satisfies
current_mode < num_modes.  But after the reachable byte stream
`40 10 AF` (sync, num_modes becomes 1) followed by an INFO_NAME frame whose
header carries mode bits 3, the session is still synced with num_modes = 1
and current_mode = 3. -/
theorem c4_counterexample :
    c4port.synced = true ∧ c4port.num_modes = 1 ∧ c4port.mode = 3 ∧
    ¬ c4port.mode < c4port.num_modes := by decide

/-- C4 (amended): processing an accepted DATA frame whose header carries mode
bits m sets current_mode to m for every m in [0, 8) with no comparison
against num_modes — shown on a Running session that knows only one mode.
Only the bound current_mode < 8 (the mode-table size, from the 3-bit mask)
is maintained, not current_mode < num_modes. -/
theorem c4_mode_set_unchecked :
    ∀ m : Fin 8,
      (outPort (processMsg { c4running with buffer := dataFrame m.val })).mode = m.val ∧
      (outPort (processMsg { c4running with buffer := dataFrame m.val })).synced = true ∧
      (outPort (processMsg { c4running with buffer := dataFrame m.val })).num_modes = 1 ∧
      m.val < 8 := by decide

/-- C4 (witness): the unconditional mode update instantiated at mode bits 3. -/
theorem c4_mode_set_unchecked_witness :
    (outPort (processMsg { c4running with buffer := dataFrame 3 })).mode = 3 ∧
    (outPort (processMsg { c4running with buffer := dataFrame 3 })).synced = true ∧
    (outPort (processMsg { c4running with buffer := dataFrame 3 })).num_modes = 1 ∧
    3 < 8 :=
  c4_mode_set_unchecked 3

/-- C5 (counterexample): the claim says a TYPE triplet split across two
deliveries is still recognized.  But delivering `40 10` and then `AF` to a
fresh port leaves it unsynced: the scanner drops trailing bytes when fewer
than 3 remain. -/
theorem c5_counterexample :
    (receive_buf (receive_buf initPort [0x40, 0x10]).1 [0xAF]).1.synced = false := by decide

/-- C5 (amended): while unsynced, a delivery of fewer than 3 bytes is
discarded without any state change (nothing is retained for the next
delivery), so a TYPE triplet split across deliveries is not recognized;
the same triplet arriving within a single delivery synchronizes the port
as sensor type 16. -/
theorem c5_short_delivery_dropped :
    (∀ (p : Port) (cp : List Nat), p.synced = false → cp.length < 3 →
        receive_buf p cp = (p, [])) ∧
    ((feed initPort [[0x40, 0x10, 0xAF]]).synced = true ∧
     (feed initPort [[0x40, 0x10, 0xAF]]).type = 16) := by
  constructor
  · intro p cp h1 h2
    match cp with
    | [] => simp [receive_buf, h1, syncScan]
    | [a] => simp [receive_buf, h1, syncScan]
    | [a, b] => simp [receive_buf, h1, syncScan]
    | a :: b :: c :: rest =>
      simp at h2
      omega
  · decide

/-- C5 (witness): the discard behavior instantiated at the fresh port with
the 2-byte delivery `40 10`. -/
theorem c5_short_delivery_dropped_witness :
    receive_buf initPort [0x40, 0x10] = (initPort, []) :=
  c5_short_delivery_dropped.1 initPort [0x40, 0x10] rfl (by decide)

/-- C6 (counterexample): the claim says read_value returns a distinguished
not-ready error in every state other than Running.  But after a resync
(synced = false) with the previous handshake's metadata still in the mode
table, show_value still returns the stale sample value 42. -/
theorem c6_counterexample :
    c6port.synced = false ∧ show_value c6port 0 = some 42 := by decide

/-- C6 (amended): show_value returns a well-defined integer iff the index is
below the current mode's data_sets and the mode's format is one of the four
known formats; the phase is never consulted, so after a resync (session
unsynced, metadata from the previous handshake still present) it still
returns the stale value instead of a not-ready error. -/
theorem c6_show_value_iff :
    (∀ (p : Port) (i : Nat),
        (show_value p i).isSome = true ↔
          (i < (modeInfoAt p p.mode).data_sets ∧ (modeInfoAt p p.mode).format < 4)) ∧
    (c6port.synced = false ∧ c6port.info_done = true ∧ show_value c6port 0 = some 42) := by
  constructor
  · intro p i
    simp only [show_value, DATA_8, DATA_16, DATA_32, DATA_FLOAT]
    split_ifs <;> simp_all <;> omega
  · decide

/-- C6 (witness): the iff instantiated at the post-resync session and
index 0. -/
theorem c6_show_value_iff_witness :
    (show_value c6port 0).isSome = true ↔
      (0 < (modeInfoAt c6port c6port.mode).data_sets ∧
       (modeInfoAt c6port c6port.mode).format < 4) :=
  c6_show_value_iff.1 c6port 0

/-- C7 (counterexample): the claim says an accepted INFO_FORMAT frame stores
format, figures and decimals for every mode index including mode 0.  But for
current mode 0, a FORMAT frame carrying figures byte 9 and decimals byte 2
leaves figures at its default 4 and decimals at 0 (only format is stored). -/
theorem c7_counterexample :
    (formatFrame 0).getD 4 0 = 9 ∧ (formatFrame 0).getD 5 0 = 2 ∧
    isFail (processMsg (c7port 0)) = false ∧
    (modeInfoAt (outPort (processMsg (c7port 0))) 0).format = 2 ∧
    (modeInfoAt (outPort (processMsg (c7port 0))) 0).figures = 4 ∧
    (modeInfoAt (outPort (processMsg (c7port 0))) 0).decimals = 0 := by decide

/-- C7 (amended): an accepted INFO_FORMAT frame for the current mode stores
format (and data_sets) for every mode index; figures and decimals are stored,
and current_mode decremented, only when the current mode is nonzero — for
mode 0 they keep their previous (default) values and current_mode stays 0. -/
theorem c7_format_stores :
    ∀ m : Fin 8,
      isFail (processMsg (c7port m.val)) = false ∧
      (modeInfoAt (outPort (processMsg (c7port m.val))) m.val).format = 2 ∧
      (modeInfoAt (outPort (processMsg (c7port m.val))) m.val).data_sets = 1 ∧
      (if m.val = 0 then
        (modeInfoAt (outPort (processMsg (c7port m.val))) 0).figures = 4 ∧
        (modeInfoAt (outPort (processMsg (c7port m.val))) 0).decimals = 0 ∧
        (outPort (processMsg (c7port m.val))).mode = 0
      else
        (modeInfoAt (outPort (processMsg (c7port m.val))) m.val).figures = 9 ∧
        (modeInfoAt (outPort (processMsg (c7port m.val))) m.val).decimals = 2 ∧
        (outPort (processMsg (c7port m.val))).mode = m.val - 1) := by decide

/-- C7 (witness): the amended FORMAT behavior instantiated at mode 5. -/
theorem c7_format_stores_witness :
    isFail (processMsg (c7port 5)) = false ∧
    (modeInfoAt (outPort (processMsg (c7port 5))) 5).format = 2 ∧
    (modeInfoAt (outPort (processMsg (c7port 5))) 5).data_sets = 1 ∧
    ((modeInfoAt (outPort (processMsg (c7port 5))) 5).figures = 9 ∧
     (modeInfoAt (outPort (processMsg (c7port 5))) 5).decimals = 2 ∧
     (outPort (processMsg (c7port 5))).mode = 4) :=
  c7_format_stores 5

/-- C8: a DATA frame with header 0xF0 (payload-size exponent 6) and a valid
checksum is accepted in Running, and the copy into raw_data is
msg_size − 2 = 64 bytes — twice the 32-byte raw_data field, i.e. an
out-of-bounds write in the C code.  This evaluates the code at the failing
input of the claim. -/
theorem c8_overflow_eval :
    isFail (processMsg (mkRunning 16 c8frame)) = false ∧
    (outPort (processMsg (mkRunning 16 c8frame))).num_data_err = 0 ∧
    msgSize 0xF0 - 2 = 64 ∧
    (modeInfoAt (outPort (processMsg (mkRunning 16 c8frame))) 0).raw_data.length = 64 ∧
    SENSOR_DATA_SIZE = 32 ∧ ¬ (64 : Nat) ≤ SENSOR_DATA_SIZE := by decide

/-- C9: encoding a CMD header for payload size 32 yields 0x64, i.e. size
code 4, because find_last_bit is handed sizeof(unsigned long) = 4 as the
number of bits to search: the header decodes to payload 16 and msg_size 18
instead of 32 and 34, so the round-trip law fails at s = 32 (while sizes
1, 2, 4, 8, 16 do round-trip).  This evaluates the code at the failing
input of the claim. -/
theorem c9_encode_eval :
    legoev3_uart_set_msg_hdr 0x40 32 4 = 0x64 ∧
    hdrPayloadLen (legoev3_uart_set_msg_hdr 0x40 32 4) = 16 ∧
    msgSize (legoev3_uart_set_msg_hdr 0x40 32 4) = 18 ∧
    (([1, 2, 4, 8, 16].all fun s =>
        hdrPayloadLen (legoev3_uart_set_msg_hdr 0x40 s 4) == s
        && hdrMsgType (legoev3_uart_set_msg_hdr 0x40 s 4) == 0x40
        && hdrCmd (legoev3_uart_set_msg_hdr 0x40 s 4) == 4
        && msgSize (legoev3_uart_set_msg_hdr 0x40 s 4) == s + 2) = true) := by decide

/-- C10 (counterexample): the claim says a SYS_SYNC (0x00) followed by 0xFF
is consumed as a single 2-byte message in one framing step.  But after
receive_buf handles exactly those two bytes on a Running session, the 0xFF
is still in the buffer: only the SYNC byte (one byte) was consumed. -/
theorem c10_counterexample :
    (receive_buf (mkRunning 16 []) [0x00, 0xFF]).1.buffer = [0xFF] := by decide

/-- C10 (amended): a SYS_SYNC followed by 0xFF is not consumed as one 2-byte
message: SYS headers always have msg_size 1 (so the msg_size++ quirk in the
SYS_SYNC branch can never fire), the SYNC is consumed as a 1-byte message
with no error and no other state change, and the trailing 0xFF stays at the
head of the buffer; since msgSize 0xFF = 130, that 0xFF is discarded (as a
separate 1-byte step) only once 130 bytes have accumulated. -/
theorem c10_sync_consumed_one_byte :
    msgSize 0x00 = 1 ∧
    (receive_buf (mkRunning 16 []) [0x00, 0xFF]).1
      = { mkRunning 16 [] with buffer := [0xFF] } ∧
    (receive_buf (mkRunning 16 []) [0x00, 0xFF]).2 = [] ∧
    msgSize 0xFF = 130 ∧
    processMsg { mkRunning 16 [] with buffer := 0xFF :: List.replicate 129 0 }
      = .next { mkRunning 16 [] with buffer := List.replicate 129 0 } [] := by decide

end EV3
